import Mathlib

/-!
Verification of the model/schema binding layer of `qiskit/validation/base.py`
(classes `BaseSchema`, `_SchemaBinder`, decorator `bind_schema`, base model
`BaseModel`).

The module is embedded shallowly:

* Python primitive values become the inductive `Value`; a Python `dict` (and
  likewise an instance's `__dict__`) becomes an association list `Mapping`
  with Python's assignment semantics (`dset`: replace in place, else append).
* A model instance (`BaseModel`, a `SimpleNamespace`) is `Instance`: a class
  tag plus its attribute dictionary.  The validity flag `__is_valid__` lives
  inside the attribute dictionary, exactly as the Python attribute does.
* The process-wide validation-recording session flag
  (`qiskit.validation.utils.is_validating`, not part of the sources) is
  threaded explicitly as a `Bool` argument, and the sentinel
  (`qiskit.validation.utils.VALID_MODEL`) is the constructor
  `PyObj.validModel`; both are modelled from the spec (§4.3).
* The marshmallow engine (`Schema.dump` / `Schema.load` / `Schema.validate`,
  an external dependency) is modelled from the spec (§4.1, §6): a declared
  field is a `FieldSpec` with a required flag and a `check` function
  (`check_and_coerce`), the field walk of `dump` copies declared attributes,
  and `load` runs every declared field's check, reporting missing required
  fields.  The `@post_dump` / `@post_load` hooks themselves
  (`dump_additional_data`, `load_additional_data`, `_make_model`) are
  translated from the sources.
* Raising is an `Except`; `PyErr.attributeError` is the `AttributeError`
  obtained when the `@post_dump` hook reads `original_data.__dict__` on a
  value that has no `__dict__`, and `PyErr.typeError` is Python's
  duplicate-keyword-argument `TypeError` in `model_cls(**data,
  __validity_warranty__=True)`.
-/

namespace QiskitValidation

/-- Primitive Python-style values carried by mappings and instance
attributes. -/
inductive Value where
  | str (s : String)
  | nat (n : Nat)
  | bool (b : Bool)
deriving DecidableEq

/-- Python truthiness of a primitive value, as used by `if` on the result of
`is_valid_instance`. -/
def Value.truthy : Value → Bool
  | .str s => s != ""
  | .nat n => n != 0
  | .bool b => b

/-- A Python dictionary (or an instance `__dict__`): an association list of
string keys to values. -/
abbrev Mapping := List (String × Value)

/-- Dictionary key lookup (`d[k]` / `getattr`), first matching key. -/
def dlookup (k : String) : Mapping → Option Value
  | [] => none
  | p :: rest => if p.1 = k then some p.2 else dlookup k rest

/-- Key membership test (`k in d` / `hasattr`). -/
def hasKey (m : Mapping) (k : String) : Bool :=
  (dlookup k m).isSome

/-- Dictionary assignment `d[k] = v` (also attribute assignment): replaces
the value in place if the key is present, otherwise appends the pair. -/
def dset (m : Mapping) (k : String) (v : Value) : Mapping :=
  match m with
  | [] => [(k, v)]
  | p :: rest => if p.1 = k then (k, v) :: rest else p :: dset rest k v

/-- A model instance: its class (as a tag identifying the bound model type)
and its attribute dictionary `__dict__`.  `BaseModel` extends
`SimpleNamespace`, so all attributes, including the validity flag
`__is_valid__`, live in the ordinary attribute dictionary. -/
structure Instance where
  cls : Nat
  attrs : Mapping
deriving DecidableEq

/-- Modelled from the spec: the external Field Validator capability (§6).
A declared field carries its name, its required flag (`is_required`) and its
`check_and_coerce` function, which either rejects a raw value (`none`) or
accepts and possibly coerces it. -/
structure FieldSpec where
  name : String
  required : Bool
  check : Value → Option Value

/-- A schema class: its declared fields and its own-dictionary `model_cls`
slot, which is `none` until `bind_schema` fills it (the binder checks the
class's own `__dict__`, so a fresh `BaseSchema` subclass starts unbound). -/
structure SchemaCls where
  fields : List FieldSpec
  model_cls : Option Nat := none

/-- Reserved attribute names excluded from dump output
(`BaseSchema.black_list`, line 49 of the sources). -/
def black_list : List String := ["__is_valid__"]

/-- A Python object as seen by `dump` / `load`: a model instance, the
`VALID_MODEL` sentinel (modelled from the spec, §4.3), a plain dictionary,
or any other primitive value. -/
inductive PyObj where
  | inst (i : Instance)
  | validModel
  | dict (m : Mapping)
  | raw (v : Value)
deriving DecidableEq

/-- Validation errors collected by the engine.  `missingRequired` names a
required declared field absent from the input, `invalidField` a field whose
check rejected the value, `notAnInstance` is the `ValidationError` built at
line 58 of the sources, and `invalidInput` is the engine's complaint about a
non-mapping input to `load`. -/
inductive VError where
  | missingRequired (field : String)
  | invalidField (field : String)
  | notAnInstance (cls : Option Nat)
  | invalidInput
deriving DecidableEq

/-- A raised Python exception: `AttributeError` (reading `__dict__` on a
value that has none), `TypeError` (duplicate keyword argument during model
construction), a `ValidationError` carrying an error list, or a
`ValidationError` carrying the index-tagged error set of a list-mode call. -/
inductive PyErr where
  | attributeError
  | typeError
  | validation (es : List VError)
  | validationMany (es : List (Nat × List VError))
deriving DecidableEq

/-- `BaseSchema.validate_model` (lines 70-77): marks the instance as valid by
setting the attribute `__is_valid__` to `True`. -/
def validate_model (i : Instance) : Instance :=
  ⟨i.cls, dset i.attrs "__is_valid__" (.bool true)⟩

/-- `BaseSchema.invalidate_instance` (lines 79-88): marks the instance as
potentially invalid by setting `__is_valid__` to `False`. -/
def invalidate_instance (i : Instance) : Instance :=
  ⟨i.cls, dset i.attrs "__is_valid__" (.bool false)⟩

/-- `BaseSchema.is_valid_instance` (lines 90-96):
`getattr(instance, '__is_valid__', False)` — the raw attribute value, with a
`False` default when the attribute is absent. -/
def is_valid_instance (i : Instance) : Value :=
  (dlookup "__is_valid__" i.attrs).getD (.bool false)

/-- Ordinary attribute mutation on an instance (`instance.k = v`), used to
state that mutation never touches the validity flag. -/
def set_attr (i : Instance) (k : String) (v : Value) : Instance :=
  ⟨i.cls, dset i.attrs k v⟩

/-- Modelled from the spec: the field walk of marshmallow `Schema.dump`
(§4.1) — for each declared field, copy the instance attribute of that name
into the output, skipping absent attributes. -/
def marshalFields (F : List FieldSpec) (attrs : Mapping) : Mapping :=
  F.filterMap (fun f => (dlookup f.name attrs).map (fun v => (f.name, v)))

/-- Membership in `black_list` as a boolean test. -/
def reservedName (k : String) : Bool :=
  black_list.contains k

/-- `BaseSchema.dump_additional_data`, single-object branch (lines 121-126):
extends `valid_data` with `set(original.__dict__) - set(valid_data) -
set(black_list)`, copying each such attribute verbatim. -/
def dump_additional_data (valid_data : Mapping) (original : Mapping) : Mapping :=
  valid_data ++ original.filter (fun p => !(hasKey valid_data p.1) && !(reservedName p.1))

/-- `BaseSchema.load_additional_data`, single-object branch (lines 150-153):
extends `valid_data` with `set(original) - set(valid_data)`, copying each
such key verbatim.  Note: unlike the dump direction, no `black_list`
subtraction appears in the sources. -/
def load_additional_data (valid_data : Mapping) (original : Mapping) : Mapping :=
  valid_data ++ original.filter (fun p => !(hasKey valid_data p.1))

/-- `BaseSchema.dump_additional_data`, `many=True` branch (lines 115-120):
the same merge applied per element, element `i` of `valid_data` merged with
element `i` of `original_data`. -/
def dump_additional_data_many (valid_data : List Mapping) (original : List Instance) : List Mapping :=
  List.zipWith (fun vd i => dump_additional_data vd i.attrs) valid_data original

/-- `BaseSchema.load_additional_data`, `many=True` branch (lines 145-149):
the same merge applied per element, aligned by index. -/
def load_additional_data_many (valid_data : List Mapping) (original : List Mapping) : List Mapping :=
  List.zipWith load_additional_data valid_data original

/-- `isinstance(obj, self.model_cls)` for a schema: true exactly when `obj`
is an instance whose class is the schema's bound model type. -/
def isinstanceModel (s : SchemaCls) : PyObj → Bool
  | .inst i => s.model_cls == some i.cls
  | _ => false

/-- Modelled from the spec: marshmallow `Schema.dump` as specialised by the
registered `@post_dump` hook (§4.1) — the field walk followed by
`dump_additional_data`.  On a value without a `__dict__` the hook's
`original_data.__dict__` raises `AttributeError`. -/
def superDump (s : SchemaCls) (obj : PyObj) : Except PyErr (PyObj × List VError) :=
  match obj with
  | .inst i =>
    .ok (.dict (dump_additional_data (marshalFields s.fields i.attrs) i.attrs), [])
  | _ => .error .attributeError

/-- `BaseSchema.dump` (lines 51-62).  `validating` is the value of
`is_validating()` (the process-wide validation-recording session flag,
modelled from the spec, §4.3).  Inside a session: a known-valid instance of
the bound model type short-circuits to the `VALID_MODEL` sentinel; a value
that is not an instance of the bound model type is echoed back with a single
`ValidationError`.  Everything else falls through to `super().dump`. -/
def BaseSchema.dump (s : SchemaCls) (validating : Bool) (obj : PyObj) :
    Except PyErr (PyObj × List VError) :=
  if validating then
    match obj with
    | .inst i =>
      if s.model_cls == some i.cls then
        if (is_valid_instance i).truthy then
          .ok (.validModel, [])
        else
          superDump s obj
      else
        .ok (obj, [VError.notAnInstance s.model_cls])
    | _ => .ok (obj, [VError.notAnInstance s.model_cls])
  else
    superDump s obj

/-- Modelled from the spec: the per-field validation/deserialization pass of
marshmallow `load` / `validate` (§4.1, §6).  Returns the validated data (the
coerced values of the declared fields present in the input), the error list
(missing required fields, rejected values) and the number of field checks
actually executed (the field-level validation work). -/
def fieldResults (F : List FieldSpec) (m : Mapping) : Mapping × List VError × Nat :=
  match F with
  | [] => ([], [], 0)
  | f :: fs =>
    let r := fieldResults fs m
    match dlookup f.name m with
    | some v =>
      match f.check v with
      | some w => ((f.name, w) :: r.1, r.2.1, r.2.2 + 1)
      | none => (r.1, VError.invalidField f.name :: r.2.1, r.2.2 + 1)
    | none =>
      if f.required then (r.1, VError.missingRequired f.name :: r.2.1, r.2.2)
      else r

/-- Keys that collide with the parameters of the wrapped constructor
`_decorated(self, **kwargs)` called as `model_cls(**data,
__validity_warranty__=True)`: if `data` itself contains either name, Python
raises `TypeError` (duplicate keyword argument). -/
def kwargCollision (data : Mapping) : Bool :=
  hasKey data "__validity_warranty__" || hasKey data "self"

/-- `BaseSchema._make_model` (lines 157-159):
`model_cls(**data, __validity_warranty__=True)`.  Construction installs the
data as attributes and, through the warranty path of the wrapped
constructor, marks the instance valid.  Raises `TypeError` if `data` already
contains a constructor parameter name. -/
def _make_model (s : SchemaCls) (data : Mapping) : Except PyErr Instance :=
  if kwargCollision data then .error .typeError
  else .ok (validate_model ⟨s.model_cls.getD 0, data⟩)

/-- Modelled from the spec: one element of the marshmallow `load` pipeline
(§4.1) with the registered `@post_load` hooks from the sources — field
validation, then `load_additional_data`, then `_make_model`; an element with
errors keeps its partially validated data and is not constructed. -/
def loadElem (s : SchemaCls) (m : Mapping) : Except PyErr (PyObj × List VError) :=
  if (fieldResults s.fields m).2.1 = [] then
    match _make_model s (load_additional_data (fieldResults s.fields m).1 m) with
    | .ok i => .ok (.inst i, [])
    | .error e => .error e
  else
    .ok (.dict (fieldResults s.fields m).1, (fieldResults s.fields m).2.1)

/-- Modelled from the spec: marshmallow `Schema.load` on a single input —
a mapping goes through `loadElem`; a non-mapping input yields the engine's
invalid-input error. -/
def superLoad (s : SchemaCls) (data : PyObj) : Except PyErr (PyObj × List VError) :=
  match data with
  | .dict m => loadElem s m
  | _ => .ok (.dict [], [VError.invalidInput])

/-- `BaseSchema.load` (lines 64-68): the `VALID_MODEL` sentinel passes
through unchanged with an empty error set; everything else goes to
`super().load`. -/
def BaseSchema.load (s : SchemaCls) (data : PyObj) : Except PyErr (PyObj × List VError) :=
  match data with
  | .validModel => .ok (.validModel, [])
  | _ => superLoad s data

/-- `_SchemaBinder._to_dict` (lines 194-200): dump, then raise
`ValidationError(errors)` when the error list is non-empty, else return the
data. -/
def _to_dict (s : SchemaCls) (validating : Bool) (i : Instance) : Except PyErr PyObj :=
  match BaseSchema.dump s validating (.inst i) with
  | .error e => .error e
  | .ok (d, errs) => if errs = [] then .ok d else .error (.validation errs)

/-- `_SchemaBinder._from_dict` (lines 221-227): load, then raise
`ValidationError(errors)` when the error list is non-empty, else return the
data. -/
def _from_dict (s : SchemaCls) (d : PyObj) : Except PyErr PyObj :=
  match BaseSchema.load s d with
  | .error e => .error e
  | .ok (d2, errs) => if errs = [] then .ok d2 else .error (.validation errs)

/-- Modelled from the spec: marshmallow `Schema.validate` (§4.1) — the
validation-only pass over a mapping, returning the error list and the number
of field checks executed. -/
def schemaValidate (s : SchemaCls) (d : PyObj) : List VError × Nat :=
  match d with
  | .dict m => ((fieldResults s.fields m).2.1, (fieldResults s.fields m).2.2)
  | _ => ([VError.invalidInput], 0)

/-- The body of the not-yet-valid branch of `_SchemaBinder._validate`
(lines 207-214): serialize the instance inside a validation-recording
session (`__is_validating__ = True` around `instance.to_dict()`), run
`schema.validate` on the result, raise on errors, otherwise mark the
instance valid.  The returned `Nat` is the field-level validation work
performed. -/
def runValidation (s : SchemaCls) (i : Instance) : Except PyErr (Instance × Nat) :=
  match _to_dict s true i with
  | .error e => .error e
  | .ok d =>
    if (schemaValidate s d).1 = [] then .ok (validate_model i, (schemaValidate s d).2)
    else .error (.validation (schemaValidate s d).1)

/-- `_SchemaBinder._validate` (lines 202-214): a no-op (zero field checks)
when the instance is already marked valid, otherwise the full validation of
`runValidation`. -/
def _validate (s : SchemaCls) (i : Instance) : Except PyErr (Instance × Nat) :=
  if (is_valid_instance i).truthy then .ok (i, 0)
  else runValidation s i

/-- `_SchemaBinder._invalidate` (lines 216-219): delegate to
`invalidate_instance`. -/
def _invalidate (i : Instance) : Instance :=
  invalidate_instance i

/-- `_SchemaBinder._validate_after_init` (lines 229-243) composed with
`SimpleNamespace.__init__`: build the instance from the keyword arguments;
with the `__validity_warranty__` marker the instance is marked valid
directly, otherwise `_validate` runs immediately. -/
def model_init (s : SchemaCls) (tag : Nat) (kwargs : Mapping) (warranty : Bool) :
    Except PyErr Instance :=
  let base : Instance := ⟨tag, kwargs⟩
  if warranty then .ok (validate_model base)
  else
    match _validate s base with
    | .ok r => .ok r.1
    | .error e => .error e

/-- The model type returned by the binder, carrying the four installed
operations (`to_dict`, `from_dict`, `_validate`, `_invalidate`) and the
`schema` attribute (lines 181-190). -/
structure BoundModel where
  model_tag : Nat
  schema : SchemaCls
  to_dict : Instance → Except PyErr PyObj
  from_dict : PyObj → Except PyErr PyObj
  validate : Instance → Except PyErr (Instance × Nat)
  invalidate : Instance → Instance

/-- `_SchemaBinder.__call__` (lines 169-192): raise `ValueError` when the
schema class already records a bound model type, otherwise set the
back-reference `model_cls`, install the four operations on the model type
and return it. -/
def doubleBindingMsg : String :=
  "The schema can not be bound twice. It is already bound. If you want to reuse the schema, use subclassing."

def bind_schema (s : SchemaCls) (tag : Nat) : Except String (SchemaCls × BoundModel) :=
  if s.model_cls.isSome then
    .error doubleBindingMsg
  else
    let s2 : SchemaCls := { fields := s.fields, model_cls := some tag }
    .ok (s2, ⟨tag, s2, _to_dict s2 false, _from_dict s2, _validate s2, _invalidate⟩)

/-- Modelled from the spec: marshmallow dump in list mode (§4.1 `many`
semantics) — element-wise, preserving order; no dump-side field errors
arise. -/
def dumpElem (s : SchemaCls) (i : Instance) : Mapping :=
  dump_additional_data (marshalFields s.fields i.attrs) i.attrs

/-- Modelled from the spec: marshmallow dump over a sequence of instances,
per element, aligned by index. -/
def superDumpMany (s : SchemaCls) (objs : List Instance) : List Mapping :=
  dump_additional_data_many (objs.map (fun i => marshalFields s.fields i.attrs)) objs

/-- Modelled from the spec: marshmallow load in list mode (§4.1) — the
pipeline runs per element, preserving order, and the error set is a
sequence aligned by index (only indices with errors are reported, as in the
engine's index-keyed error dictionary). -/
def superLoadMany (s : SchemaCls) (ms : List Mapping) :
    Except PyErr (List PyObj × List (Nat × List VError)) :=
  match ms.mapM (loadElem s) with
  | .error e => .error e
  | .ok prs =>
    .ok (prs.map (fun p => p.1),
      prs.enum.filterMap (fun q => if q.2.2 = [] then none else some (q.1, q.2.2)))

/-- `_SchemaBinder._from_dict` as it would run in list mode: load the
sequence, then raise `ValidationError(errors)` when the error set is
non-empty, else return the data. -/
def from_dict_many (s : SchemaCls) (ms : List Mapping) : Except PyErr (List PyObj) :=
  match superLoadMany s ms with
  | .error e => .error e
  | .ok (data, errs) => if errs = [] then .ok data else .error (.validationMany errs)

/-- The round trip of the spec's §8.1: `from_mapping` then `to_mapping`
(outside any validation-recording session), returning the produced mapping
when both steps succeed on a mapping input. -/
def roundTrip (s : SchemaCls) (m : Mapping) : Option Mapping :=
  match _from_dict s (.dict m) with
  | .ok (.inst i) =>
    match _to_dict s false i with
    | .ok (.dict out) => some out
    | _ => none
  | _ => none

/-- Whether some declared field has the given name. -/
def hasField (F : List FieldSpec) (k : String) : Bool :=
  F.any (fun f => f.name == k)

/-- A string field validator: accepts strings unchanged, rejects everything
else (the behaviour of the engine's `String` field). -/
def strField (name : String) (required : Bool) : FieldSpec :=
  ⟨name, required, fun v => match v with
    | .str s => some (.str s)
    | _ => none⟩

/-- An integer field validator in the style of the engine's `Integer` field:
accepts naturals unchanged and, like Python's `int`, coerces booleans to the
numbers 1 and 0. -/
def intField (name : String) (required : Bool) : FieldSpec :=
  ⟨name, required, fun v => match v with
    | .nat n => some (.nat n)
    | .bool b => some (.nat (if b then 1 else 0))
    | _ => none⟩

/-- The person example of the spec (§8.6): one required string field `name`,
bound to model type 1. -/
def personSchema : SchemaCls :=
  ⟨[strField "name" true], some 1⟩

/-- A schema with one required coercing integer field `n`, bound to model
type 2. -/
def numSchema : SchemaCls :=
  ⟨[intField "n" true], some 2⟩

/-- Recognises a result of one of the two special branches of
`BaseSchema.dump`: the valid-sentinel short-circuit, or the wrong-type echo
carrying a `notAnInstance` error. -/
def isSpecialDump : Except PyErr (PyObj × List VError) → Bool
  | .ok (.validModel, _) => true
  | .ok (_, es) => es.any (fun e => match e with
      | .notAnInstance _ => true
      | _ => false)
  | .error _ => false

theorem hasField_nil (k : String) : hasField [] k = false := rfl

theorem hasField_cons (f : FieldSpec) (fs : List FieldSpec) (k : String) :
    hasField (f :: fs) k = ((f.name == k) || hasField fs k) := by
  simp [hasField]

theorem hasKey_eq (m : Mapping) (k : String) : hasKey m k = (dlookup k m).isSome := rfl

theorem dlookup_dset (m : Mapping) (k2 k : String) (v : Value) :
    dlookup k (dset m k2 v) = if k2 = k then some v else dlookup k m := by
  induction m with
  | nil => by_cases h : k2 = k <;> simp [dset, dlookup, h]
  | cons p rest ih =>
    by_cases hp : p.1 = k2 <;> by_cases hk2 : k2 = k
    · simp [dset, dlookup, hp, hk2]
    · have hpk : ¬ p.1 = k := by rw [hp]; exact hk2
      simp [dset, dlookup, hp, hk2, hpk]
    · subst hk2
      simp [dset, dlookup, hp, ih]
    · by_cases hpk : p.1 = k
      · have hkk2 : ¬ k = k2 := fun h => hk2 h.symm
        simp [dset, dlookup, hp, hk2, hpk, hkk2]
      · simp [dset, dlookup, hp, hk2, hpk, ih]

theorem dlookup_append (m1 m2 : Mapping) (k : String) :
    dlookup k (m1 ++ m2) =
      match dlookup k m1 with
      | some v => some v
      | none => dlookup k m2 := by
  induction m1 with
  | nil => simp [dlookup]
  | cons p rest ih => by_cases h : p.1 = k <;> simp [dlookup, h, ih]

theorem dlookup_filter_extra (vd orig : Mapping) (k : String) :
    dlookup k (orig.filter (fun p => !(hasKey vd p.1) && !(reservedName p.1))) =
      if hasKey vd k || reservedName k then none else dlookup k orig := by
  induction orig with
  | nil => simp [dlookup]
  | cons q rest ih =>
    simp only [List.filter_cons]
    by_cases hq : q.1 = k
    · subst hq
      by_cases h1 : hasKey vd q.1 <;> by_cases h2 : reservedName q.1 <;>
        simp [h1, h2, dlookup, ih]
    · by_cases h1 : hasKey vd q.1 <;> by_cases h2 : reservedName q.1 <;>
        simp [h1, h2, dlookup, hq, ih]

theorem dlookup_filter_unknown (vd orig : Mapping) (k : String) :
    dlookup k (orig.filter (fun p => !(hasKey vd p.1))) =
      if hasKey vd k then none else dlookup k orig := by
  induction orig with
  | nil => simp [dlookup]
  | cons q rest ih =>
    simp only [List.filter_cons]
    by_cases hq : q.1 = k
    · subst hq
      by_cases h1 : hasKey vd q.1 <;> simp [h1, dlookup, ih]
    · by_cases h1 : hasKey vd q.1 <;> simp [h1, dlookup, hq, ih]

theorem dlookup_dump_additional (vd orig : Mapping) (k : String) :
    dlookup k (dump_additional_data vd orig) =
      match dlookup k vd with
      | some v => some v
      | none => if reservedName k then none else dlookup k orig := by
  unfold dump_additional_data
  rw [dlookup_append, dlookup_filter_extra]
  cases h : dlookup k vd with
  | some v => simp
  | none => simp [hasKey, h]

theorem dlookup_load_additional (vd orig : Mapping) (k : String) :
    dlookup k (load_additional_data vd orig) =
      match dlookup k vd with
      | some v => some v
      | none => dlookup k orig := by
  unfold load_additional_data
  rw [dlookup_append, dlookup_filter_unknown]
  cases h : dlookup k vd with
  | some v => simp
  | none => simp [hasKey, h]

theorem fieldResults_cons_none_vd (f : FieldSpec) (fs : List FieldSpec) (m : Mapping)
    (hm : dlookup f.name m = none) :
    (fieldResults (f :: fs) m).1 = (fieldResults fs m).1 := by
  simp only [fieldResults, hm]
  by_cases hr : f.required <;> simp [hr]

theorem fieldResults_vd_dlookup (F : List FieldSpec) (m : Mapping)
    (Hcheck : ∀ f ∈ F, ∀ v, dlookup f.name m = some v → f.check v = some v) (k : String) :
    dlookup k (fieldResults F m).1 = if hasField F k then dlookup k m else none := by
  induction F with
  | nil => simp [fieldResults, hasField, dlookup]
  | cons f fs ih =>
    have hf := Hcheck f (List.mem_cons_self _ _)
    have ih2 := ih (fun g hg v hv => Hcheck g (List.mem_cons_of_mem _ hg) v hv)
    rw [hasField_cons]
    cases hm : dlookup f.name m with
    | some v =>
      have hvd : (fieldResults (f :: fs) m).1 = (f.name, v) :: (fieldResults fs m).1 := by
        simp only [fieldResults, hm, hf v hm]
      rw [hvd]
      by_cases hk : f.name = k
      · subst hk; simp [dlookup, hm]
      · have hb : (f.name == k) = false := by simp [hk]
        simp [dlookup, hk, hb, ih2]
    | none =>
      rw [fieldResults_cons_none_vd f fs m hm, ih2]
      by_cases hk : f.name = k
      · subst hk
        by_cases h2 : hasField fs f.name <;> simp [hm, h2]
      · have hb : (f.name == k) = false := by simp [hk]
        simp [hb]

theorem fieldResults_errs_nil (F : List FieldSpec) (m : Mapping)
    (Hcheck : ∀ f ∈ F, ∀ v, dlookup f.name m = some v → f.check v = some v)
    (Hreq : ∀ f ∈ F, f.required = true → hasKey m f.name = true) :
    (fieldResults F m).2.1 = [] := by
  induction F with
  | nil => rfl
  | cons f fs ih =>
    have hf := Hcheck f (List.mem_cons_self _ _)
    have hr := Hreq f (List.mem_cons_self _ _)
    have ih2 := ih (fun g hg v hv => Hcheck g (List.mem_cons_of_mem _ hg) v hv)
      (fun g hg h => Hreq g (List.mem_cons_of_mem _ hg) h)
    cases hm : dlookup f.name m with
    | some v => simp only [fieldResults, hm, hf v hm, ih2]
    | none =>
      have hreq : f.required = false := by
        by_contra h
        have h2 := hr (by simpa using h)
        simp [hasKey, hm] at h2
      simp [fieldResults, hm, hreq, ih2]

theorem missingRequired_mem (F : List FieldSpec) (m : Mapping) (f : FieldSpec)
    (hf : f ∈ F) (hreq : f.required = true) (hm : dlookup f.name m = none) :
    VError.missingRequired f.name ∈ (fieldResults F m).2.1 := by
  induction F with
  | nil => cases hf
  | cons g gs ih =>
    simp only [fieldResults]
    rcases List.mem_cons.mp hf with rfl | htail
    · rw [hm]
      simp [hreq]
    · cases hg : dlookup g.name m with
      | some v => cases hc : g.check v <;> simp [hc, ih htail]
      | none => by_cases hr : g.required <;> simp [hr, ih htail]

theorem marshalFields_dlookup (F : List FieldSpec) (attrs : Mapping) (k : String) :
    dlookup k (marshalFields F attrs) = if hasField F k then dlookup k attrs else none := by
  induction F with
  | nil => simp [marshalFields, hasField, dlookup]
  | cons f fs ih =>
    rw [hasField_cons]
    simp only [marshalFields, List.filterMap_cons] at ih ⊢
    cases ha : dlookup f.name attrs with
    | some v =>
      by_cases hk : f.name = k
      · subst hk; simp [dlookup, ha]
      · have hb : (f.name == k) = false := by simp [hk]
        simp [dlookup, hk, hb, ih]
    | none =>
      by_cases hk : f.name = k
      · subst hk
        by_cases h2 : hasField fs f.name <;> simp [ih, ha, h2]
      · have hb : (f.name == k) = false := by simp [hk]
        simp [ih, hb]

end QiskitValidation

namespace QiskitValidation

theorem hasField_eq_false (F : List FieldSpec) (k : String)
    (h : ∀ f ∈ F, f.name ≠ k) : hasField F k = false := by
  induction F with
  | nil => rfl
  | cons f fs ih =>
    rw [hasField_cons]
    have h1 : (f.name == k) = false := by
      simp [h f (List.mem_cons_self _ _)]
    rw [h1, ih (fun g hg => h g (List.mem_cons_of_mem _ hg))]
    rfl

theorem reservedName_eq_false (k : String) (h : k ≠ "__is_valid__") :
    reservedName k = false := by
  simp [reservedName, black_list, h]

theorem is_valid_validate_model (i : Instance) :
    dlookup "__is_valid__" (validate_model i).attrs = some (.bool true) := by
  simp [validate_model, dlookup_dset]

theorem truthy_validate_model (i : Instance) :
    (is_valid_instance (validate_model i)).truthy = true := by
  simp [is_valid_instance, is_valid_validate_model, Value.truthy]

theorem is_valid_invalidate (i : Instance) :
    dlookup "__is_valid__" (invalidate_instance i).attrs = some (.bool false) := by
  simp [invalidate_instance, dlookup_dset]

theorem truthy_invalidate (i : Instance) :
    (is_valid_instance (invalidate_instance i)).truthy = false := by
  simp [is_valid_instance, is_valid_invalidate, Value.truthy]

theorem validate_ok_truthy (s : SchemaCls) (i r : Instance) (n : Nat)
    (h : _validate s i = .ok (r, n)) : (is_valid_instance r).truthy = true := by
  unfold _validate at h
  by_cases hv : (is_valid_instance i).truthy = true
  · rw [if_pos hv] at h
    simp only [Except.ok.injEq, Prod.mk.injEq] at h
    obtain ⟨h1, -⟩ := h
    rw [← h1]
    exact hv
  · rw [if_neg hv] at h
    unfold runValidation at h
    split at h
    · cases h
    · split at h
      · simp only [Except.ok.injEq, Prod.mk.injEq] at h
        obtain ⟨h1, -⟩ := h
        rw [← h1]
        exact truthy_validate_model i
      · cases h

theorem from_dict_ok_inst (s : SchemaCls) (m : Mapping) (i : Instance)
    (h : _from_dict s (.dict m) = .ok (.inst i)) :
    i = validate_model ⟨s.model_cls.getD 0, load_additional_data (fieldResults s.fields m).1 m⟩ := by
  simp only [_from_dict, BaseSchema.load, superLoad, loadElem, _make_model] at h
  by_cases he : (fieldResults s.fields m).2.1 = []
  · by_cases hc : kwargCollision (load_additional_data (fieldResults s.fields m).1 m) = true
    · simp [he, hc] at h
    · simp [he, hc] at h
      exact h.symm
  · simp [he] at h

/-- Claim C8: the validity flag is set to true only by a successful
validate call or by trusted construction (the `__validity_warranty__`
path), is reset to false only by the explicit invalidate operation, is left
untouched by mutation of any other attribute, and reads as false when
absent. -/
theorem claim_C8_flag_lifecycle :
    (∀ i : Instance, dlookup "__is_valid__" i.attrs = none →
        is_valid_instance i = .bool false) ∧
    (∀ i : Instance,
        dlookup "__is_valid__" (validate_model i).attrs = some (.bool true)) ∧
    (∀ i : Instance,
        dlookup "__is_valid__" (invalidate_instance i).attrs = some (.bool false)) ∧
    (∀ (i : Instance) (k : String) (v : Value), k ≠ "__is_valid__" →
        dlookup "__is_valid__" (set_attr i k v).attrs = dlookup "__is_valid__" i.attrs) ∧
    (∀ (s : SchemaCls) (i r : Instance) (n : Nat), _validate s i = .ok (r, n) →
        (is_valid_instance r).truthy = true) ∧
    (∀ (s : SchemaCls) (tag : Nat) (kwargs : Mapping),
        model_init s tag kwargs true = .ok (validate_model ⟨tag, kwargs⟩)) ∧
    (∀ (s : SchemaCls) (tag : Nat) (kwargs : Mapping) (r : Instance),
        model_init s tag kwargs false = .ok r → (is_valid_instance r).truthy = true) := by
  refine ⟨?_, is_valid_validate_model, is_valid_invalidate, ?_, validate_ok_truthy, ?_, ?_⟩
  · intro i h
    simp [is_valid_instance, h]
  · intro i k v hk
    rw [set_attr, dlookup_dset, if_neg hk]
  · intro s tag kwargs
    rfl
  · intro s tag kwargs r h
    unfold model_init at h
    rw [if_neg (by simp)] at h
    split at h
    · rename_i r2 hv
      simp only [Except.ok.injEq] at h
      rw [← h]
      exact validate_ok_truthy s ⟨tag, kwargs⟩ r2.1 r2.2 hv
    · cases h

/-- Claim C8 witness: an instance without the flag reads as invalid, and a
mutation of another attribute leaves a set flag untouched. -/
theorem claim_C8_witness :
    is_valid_instance ⟨1, []⟩ = .bool false ∧
    dlookup "__is_valid__" (set_attr (validate_model ⟨1, []⟩) "x" (.nat 3)).attrs =
      some (.bool true) := by
  constructor
  · exact claim_C8_flag_lifecycle.1 ⟨1, []⟩ rfl
  · rw [claim_C8_flag_lifecycle.2.2.2.1 (validate_model ⟨1, []⟩) "x" (.nat 3) (by decide)]
    exact claim_C8_flag_lifecycle.2.1 ⟨1, []⟩

/-- Claim C3: once `_validate` has succeeded on an instance, a second
`_validate` call is a no-op performing zero field-level validation work,
until `_invalidate` is called, after which the next `_validate` performs
the full validation (`runValidation`) again. -/
theorem claim_C3_validation_cache (s : SchemaCls) (x x1 : Instance) (n : Nat)
    (h : _validate s x = .ok (x1, n)) :
    _validate s x1 = .ok (x1, 0) ∧
    _validate s (_invalidate x1) = runValidation s (_invalidate x1) := by
  have ht := validate_ok_truthy s x x1 n h
  constructor
  · unfold _validate
    rw [if_pos ht]
  · have hf : (is_valid_instance (_invalidate x1)).truthy = false := truthy_invalidate x1
    unfold _validate
    rw [if_neg (by simp [hf])]

/-- Claim C3 witness: validating a fresh person instance performs one field
check and sets the flag; re-validating is then a no-op with zero checks;
after invalidation the next validate runs the full validation again. -/
theorem claim_C3_witness :
    _validate personSchema
        (⟨1, [("name", .str "Ada"), ("__is_valid__", .bool true)]⟩ : Instance) =
      .ok (⟨1, [("name", .str "Ada"), ("__is_valid__", .bool true)]⟩, 0) ∧
    _validate personSchema
        (_invalidate ⟨1, [("name", .str "Ada"), ("__is_valid__", .bool true)]⟩) =
      runValidation personSchema
        (_invalidate ⟨1, [("name", .str "Ada"), ("__is_valid__", .bool true)]⟩) :=
  claim_C3_validation_cache personSchema ⟨1, [("name", .str "Ada")]⟩
    ⟨1, [("name", .str "Ada"), ("__is_valid__", .bool true)]⟩ 1 (by rfl)

/-- Claim C7: the reserved validity-flag name `__is_valid__` is always
excluded from dump output by the unknown-field merger (for any schema that
does not declare a field of that name), and an input mapping's value at the
reserved name never survives into the constructed instance: every instance
produced by a successful `from_dict` carries `__is_valid__ = True`,
whatever value the input mapping supplied under that key. -/
theorem claim_C7_reserved_fields :
    (∀ (F : List FieldSpec) (attrs : Mapping), hasField F "__is_valid__" = false →
        dlookup "__is_valid__" (dump_additional_data (marshalFields F attrs) attrs) = none) ∧
    (∀ (s : SchemaCls) (m : Mapping) (i : Instance),
        _from_dict s (.dict m) = .ok (.inst i) →
        dlookup "__is_valid__" i.attrs = some (.bool true)) := by
  constructor
  · intro F attrs hF
    rw [dlookup_dump_additional, marshalFields_dlookup]
    simp [hF, reservedName, black_list]
  · intro s m i h
    rw [from_dict_ok_inst s m i h]
    exact is_valid_validate_model _

/-- Claim C7 witness: the dump merger drops the flag from a person dump,
and loading a mapping that smuggles `__is_valid__ = "sneaky"` still
produces an instance whose flag is `True`. -/
theorem claim_C7_witness :
    dlookup "__is_valid__"
      (dump_additional_data (marshalFields personSchema.fields [("name", .str "Ada")])
        [("name", .str "Ada")]) = none ∧
    dlookup "__is_valid__"
      (Instance.attrs ⟨1, [("name", .str "Ada"), ("__is_valid__", .bool true)]⟩) =
      some (.bool true) := by
  constructor
  · exact claim_C7_reserved_fields.1 personSchema.fields [("name", .str "Ada")] rfl
  · exact claim_C7_reserved_fields.2 personSchema
      [("name", .str "Ada"), ("__is_valid__", .str "sneaky")] _ rfl

/-- Claim C2: binding a schema class with no model type recorded succeeds,
records the binding in `model_cls`, and returns the model type with all
four installed operations (`to_dict`, `from_dict`, `_validate`,
`_invalidate`) attached; binding the same (now bound) schema object a
second time, to any model type, raises the double-binding error. -/
theorem claim_C2_double_binding (s : SchemaCls) (t1 t2 : Nat)
    (h : s.model_cls = none) :
    bind_schema s t1 = .ok ({ fields := s.fields, model_cls := some t1 },
      ⟨t1, { fields := s.fields, model_cls := some t1 },
        _to_dict { fields := s.fields, model_cls := some t1 } false,
        _from_dict { fields := s.fields, model_cls := some t1 },
        _validate { fields := s.fields, model_cls := some t1 },
        _invalidate⟩) ∧
    bind_schema { fields := s.fields, model_cls := some t1 } t2 = .error doubleBindingMsg := by
  constructor
  · simp [bind_schema, h]
  · rfl

/-- Claim C2 witness: the person schema, unbound, binds to model type 1 and
then refuses a second binding to model type 2. -/
theorem claim_C2_witness :
    bind_schema ⟨[strField "name" true], none⟩ 1 =
      .ok ({ fields := [strField "name" true], model_cls := some 1 },
        ⟨1, { fields := [strField "name" true], model_cls := some 1 },
          _to_dict { fields := [strField "name" true], model_cls := some 1 } false,
          _from_dict { fields := [strField "name" true], model_cls := some 1 },
          _validate { fields := [strField "name" true], model_cls := some 1 },
          _invalidate⟩) ∧
    bind_schema { fields := [strField "name" true], model_cls := some 1 } 2 =
      .error doubleBindingMsg :=
  claim_C2_double_binding ⟨[strField "name" true], none⟩ 1 2 rfl

/-- Claim C4 counterexample: with no validation-recording session active,
dump of the number 0 — a value that is neither an instance of the bound
model type nor the valid sentinel — does not yield the wrong-type error
with the value echoed back; it falls through to the normal engine dump,
which here raises `AttributeError`. -/
theorem claim_C4_counterexample :
    BaseSchema.dump personSchema false (.raw (.nat 0)) = .error .attributeError ∧
    BaseSchema.dump personSchema false (.raw (.nat 0)) ≠
      .ok (.raw (.nat 0), [VError.notAnInstance personSchema.model_cls]) := by
  refine ⟨rfl, ?_⟩
  intro hEq
  cases hEq

/-- Claim C4 (amended): while a validation-recording session is active,
dump of every value that is neither an instance of the bound model type nor
the valid sentinel yields exactly one wrong-type error, with the original
value echoed back unmodified as the unprocessed result, without raising. -/
theorem claim_C4_wrong_type_echo (s : SchemaCls) (c : Nat) (obj : PyObj)
    (_hb : s.model_cls = some c)
    (hni : isinstanceModel s obj = false) (hs : obj ≠ .validModel) :
    BaseSchema.dump s true obj = .ok (obj, [VError.notAnInstance s.model_cls]) := by
  cases obj with
  | inst i =>
    have hcc : (s.model_cls == some i.cls) = false := by
      simpa [isinstanceModel] using hni
    simp [BaseSchema.dump, hcc]
  | validModel => exact absurd rfl hs
  | dict m => rfl
  | raw v => rfl

/-- Claim C4 witness: in-session dump of the string "zz" against the bound
person schema echoes the value with the single wrong-type error. -/
theorem claim_C4_witness :
    BaseSchema.dump personSchema true (.raw (.str "zz")) =
      .ok (.raw (.str "zz"), [VError.notAnInstance (some 1)]) :=
  claim_C4_wrong_type_echo personSchema 1 (.raw (.str "zz")) rfl rfl (by decide)

/-- Claim C5: while a validation-recording session is active, dump of an
instance of the bound model type whose validity flag is truthy returns the
`VALID_MODEL` sentinel with an empty error set instead of walking fields,
and load of exactly that sentinel passes it through unchanged with an empty
error set. -/
theorem claim_C5_valid_shortcircuit (s : SchemaCls) (c : Nat) (i : Instance)
    (hb : s.model_cls = some c) (hc : i.cls = c)
    (hv : (is_valid_instance i).truthy = true) :
    BaseSchema.dump s true (.inst i) = .ok (.validModel, []) ∧
    BaseSchema.load s .validModel = .ok (.validModel, []) := by
  refine ⟨?_, rfl⟩
  have hcc : (s.model_cls == some i.cls) = true := by simp [hb, hc]
  simp [BaseSchema.dump, hcc, hv]

/-- Claim C5 witness: a marked-valid person instance short-circuits to the
sentinel, and the sentinel loads through unchanged. -/
theorem claim_C5_witness :
    BaseSchema.dump personSchema true
        (.inst ⟨1, [("name", .str "Ada"), ("__is_valid__", .bool true)]⟩) =
      .ok (.validModel, []) ∧
    BaseSchema.load personSchema .validModel = .ok (.validModel, []) :=
  claim_C5_valid_shortcircuit personSchema 1
    ⟨1, [("name", .str "Ada"), ("__is_valid__", .bool true)]⟩ rfl rfl (by decide)

/-- Claim C6: `from_dict` on a mapping missing a required declared field
raises `ValidationError` whose error set names that missing field. -/
theorem claim_C6_missing_required (s : SchemaCls) (f : FieldSpec) (m : Mapping)
    (hf : f ∈ s.fields) (hreq : f.required = true) (hm : dlookup f.name m = none) :
    ∃ es, _from_dict s (.dict m) = .error (.validation es) ∧
      VError.missingRequired f.name ∈ es := by
  have hmem := missingRequired_mem s.fields m f hf hreq hm
  have hne : (fieldResults s.fields m).2.1 ≠ [] := by
    intro h0
    rw [h0] at hmem
    cases hmem
  refine ⟨(fieldResults s.fields m).2.1, ?_, hmem⟩
  simp [_from_dict, BaseSchema.load, superLoad, loadElem, hne]

/-- Claim C6 witness: loading a mapping without the required `name` field
raises a `ValidationError` naming `name`. -/
theorem claim_C6_witness :
    ∃ es, _from_dict personSchema (.dict [("tag", .str "x")]) = .error (.validation es) ∧
      VError.missingRequired "name" ∈ es :=
  claim_C6_missing_required personSchema (strField "name" true) [("tag", .str "x")]
    (List.mem_cons_self _ _) rfl rfl

/-- Claim C10: outside a validation-recording session, `BaseSchema.dump` of
any value performs the normal engine walk `superDump`, and the engine walk
never produces one of the two special results (the valid-sentinel
short-circuit or a wrong-type echo); the special branches can therefore be
taken only while `is_validating()` is true. -/
theorem claim_C10_special_needs_session (s : SchemaCls) (obj : PyObj) :
    BaseSchema.dump s false obj = superDump s obj ∧
    isSpecialDump (superDump s obj) = false := by
  refine ⟨?_, ?_⟩
  · cases obj <;> rfl
  · cases obj <;> rfl

/-- Claim C9 counterexample: element 0 (`{name: "Ada"}`) loads cleanly on
its own and element 1 (`{tag: "x"}`) is missing the required `name` field,
yet `from_mapping` in list mode raises `ValidationError` instead of
producing a 2-element result: the error in element 1 blocks the result for
element 0. -/
theorem claim_C9_counterexample :
    (fieldResults personSchema.fields [("name", .str "Ada")]).2.1 = [] ∧
    (fieldResults personSchema.fields [("tag", .str "x")]).2.1 =
      [VError.missingRequired "name"] ∧
    from_dict_many personSchema [[("name", .str "Ada")], [("tag", .str "x")]] =
      .error (.validationMany [(1, [VError.missingRequired "name"])]) :=
  ⟨rfl, rfl, rfl⟩

/-- Claim C9 (amended): in list mode the engine pipeline is element-wise
and index-aligned — both unknown-field mergers process element `i` of the
data with element `i` of the originals, dump over `[x, y]` produces
`[dumpElem x, dumpElem y]`, and load over `[a, b]` (element 0 clean,
element 1 erroneous) produces the 2-element data with element 0's result
intact and the error set tagged with index 1 — but the installed
`from_mapping` raises `ValidationError` whenever the error set is
non-empty, so the error in element 1 prevents any result from being
returned by the wrapper. -/
theorem claim_C9_many_mode (s : SchemaCls) (a b : Mapping) (v1 v2 : Mapping)
    (x y : Instance) (pA : PyObj × List VError)
    (ha : (fieldResults s.fields a).2.1 = [])
    (hb : (fieldResults s.fields b).2.1 ≠ [])
    (hA : loadElem s a = .ok pA) :
    load_additional_data_many [v1, v2] [a, b] =
      [load_additional_data v1 a, load_additional_data v2 b] ∧
    dump_additional_data_many [v1, v2] [x, y] =
      [dump_additional_data v1 x.attrs, dump_additional_data v2 y.attrs] ∧
    superDumpMany s [x, y] = [dumpElem s x, dumpElem s y] ∧
    superLoadMany s [a, b] =
      .ok ([pA.1, .dict (fieldResults s.fields b).1],
        [(1, (fieldResults s.fields b).2.1)]) ∧
    from_dict_many s [a, b] =
      .error (.validationMany [(1, (fieldResults s.fields b).2.1)]) := by
  have hB : loadElem s b =
      .ok (.dict (fieldResults s.fields b).1, (fieldResults s.fields b).2.1) := by
    unfold loadElem
    rw [if_neg hb]
  have hA2 : pA.2 = [] := by
    unfold loadElem at hA
    rw [if_pos ha] at hA
    split at hA
    · simp only [Except.ok.injEq] at hA
      rw [← hA]
    · cases hA
  have hmany : superLoadMany s [a, b] =
      .ok ([pA.1, .dict (fieldResults s.fields b).1],
        [(1, (fieldResults s.fields b).2.1)]) := by
    unfold superLoadMany
    rw [show ([a, b].mapM (loadElem s)) =
        .ok [pA, (.dict (fieldResults s.fields b).1, (fieldResults s.fields b).2.1)] from by
      simp only [List.mapM, List.mapM.loop, hA, hB]
      rfl]
    simp [List.enum, List.enumFrom, hA2, hb]
  refine ⟨rfl, rfl, rfl, hmany, ?_⟩
  unfold from_dict_many
  rw [hmany]
  simp

/-- Claim C9 witness: the amended list-mode behaviour at the person schema
with a clean element 0 and an element 1 missing its required field. -/
theorem claim_C9_witness :
    load_additional_data_many [[("name", .str "Ada")], []]
        [[("name", .str "Ada")], [("tag", .str "x")]] =
      [load_additional_data [("name", .str "Ada")] [("name", .str "Ada")],
        load_additional_data [] [("tag", .str "x")]] ∧
    dump_additional_data_many [[("name", .str "Ada")], []]
        [(⟨1, []⟩ : Instance), ⟨1, []⟩] =
      [dump_additional_data [("name", .str "Ada")] (Instance.attrs ⟨1, []⟩),
        dump_additional_data [] (Instance.attrs ⟨1, []⟩)] ∧
    superDumpMany personSchema [(⟨1, []⟩ : Instance), ⟨1, []⟩] =
      [dumpElem personSchema ⟨1, []⟩, dumpElem personSchema ⟨1, []⟩] ∧
    superLoadMany personSchema [[("name", .str "Ada")], [("tag", .str "x")]] =
      .ok ([.inst ⟨1, [("name", .str "Ada"), ("__is_valid__", .bool true)]⟩,
        .dict (fieldResults personSchema.fields [("tag", .str "x")]).1],
        [(1, (fieldResults personSchema.fields [("tag", .str "x")]).2.1)]) ∧
    from_dict_many personSchema [[("name", .str "Ada")], [("tag", .str "x")]] =
      .error (.validationMany
        [(1, (fieldResults personSchema.fields [("tag", .str "x")]).2.1)]) :=
  claim_C9_many_mode personSchema [("name", .str "Ada")] [("tag", .str "x")]
    [("name", .str "Ada")] [] ⟨1, []⟩ ⟨1, []⟩
    (.inst ⟨1, [("name", .str "Ada"), ("__is_valid__", .bool true)]⟩, [])
    rfl (by decide) rfl

/-- Claim C1 counterexample: with a schema whose required field `n` uses a
coercing validator (booleans are accepted as the numbers 1 and 0, as
Python's `int` treats them), the mapping `{n: True}` contains every
required declared field and loads successfully, yet the round trip returns
`{n: 1}`: the key `n` is not reproduced with an equal value. -/
theorem claim_C1_counterexample :
    roundTrip numSchema [("n", .bool true)] = some [("n", .nat 1)] ∧
    dlookup "n" [("n", .bool true)] = some (.bool true) ∧
    (Value.nat 1 : Value) ≠ .bool true :=
  ⟨rfl, rfl, by decide⟩

/-- Claim C1 (amended): for every mapping `m` containing all required
declared fields plus arbitrary extra keys, provided each declared field's
validator accepts the supplied value unchanged (no coercion), the declared
field names avoid the reserved names, and no key of `m` collides with the
construction protocol (`__validity_warranty__`, `self`), the round trip
`to_mapping(from_mapping(m))` reproduces every key of `m` with an equal
value — and no other key — except the reserved validity-flag slot
`__is_valid__`, which never appears in the output. -/
theorem claim_C1_roundtrip (s : SchemaCls) (m : Mapping)
    (Hres : ∀ f ∈ s.fields,
        f.name ≠ "__is_valid__" ∧ f.name ≠ "__validity_warranty__" ∧ f.name ≠ "self")
    (Hreq : ∀ f ∈ s.fields, f.required = true → hasKey m f.name = true)
    (Hcheck : ∀ f ∈ s.fields, ∀ v, dlookup f.name m = some v → f.check v = some v)
    (Hm : hasKey m "__validity_warranty__" = false ∧ hasKey m "self" = false) :
    ∃ out, roundTrip s m = some out ∧
      dlookup "__is_valid__" out = none ∧
      ∀ k, k ≠ "__is_valid__" → dlookup k out = dlookup k m := by
  have herr : (fieldResults s.fields m).2.1 = [] :=
    fieldResults_errs_nil s.fields m Hcheck Hreq
  have hvd := fieldResults_vd_dlookup s.fields m Hcheck
  have hmerged : ∀ k,
      dlookup k (load_additional_data (fieldResults s.fields m).1 m) = dlookup k m := by
    intro k
    rw [dlookup_load_additional, hvd k]
    by_cases hF : hasField s.fields k = true
    · rw [if_pos hF]
      cases hdm : dlookup k m <;> simp
    · rw [if_neg hF]
  have hcol : kwargCollision (load_additional_data (fieldResults s.fields m).1 m) = false := by
    have h1 : hasKey (load_additional_data (fieldResults s.fields m).1 m)
        "__validity_warranty__" = false := by
      rw [hasKey_eq, hmerged, ← hasKey_eq]
      exact Hm.1
    have h2 : hasKey (load_additional_data (fieldResults s.fields m).1 m) "self" = false := by
      rw [hasKey_eq, hmerged, ← hasKey_eq]
      exact Hm.2
    simp [kwargCollision, h1, h2]
  have hmk : _make_model s (load_additional_data (fieldResults s.fields m).1 m) =
      .ok (validate_model
        ⟨s.model_cls.getD 0, load_additional_data (fieldResults s.fields m).1 m⟩) := by
    unfold _make_model
    simp [hcol]
  have hload : _from_dict s (.dict m) =
      .ok (.inst (validate_model
        ⟨s.model_cls.getD 0, load_additional_data (fieldResults s.fields m).1 m⟩)) := by
    simp only [_from_dict, BaseSchema.load, superLoad, loadElem]
    simp [herr, hmk]
  have hattrs : ∀ k,
      dlookup k (validate_model
        ⟨s.model_cls.getD 0, load_additional_data (fieldResults s.fields m).1 m⟩).attrs =
      if "__is_valid__" = k then some (.bool true) else dlookup k m := by
    intro k
    show dlookup k (dset (load_additional_data (fieldResults s.fields m).1 m)
      "__is_valid__" (.bool true)) = _
    rw [dlookup_dset]
    by_cases hk : "__is_valid__" = k
    · rw [if_pos hk, if_pos hk]
    · rw [if_neg hk, if_neg hk, hmerged]
  have hFflag : hasField s.fields "__is_valid__" = false :=
    hasField_eq_false s.fields "__is_valid__" (fun f hf => (Hres f hf).1)
  have hdump : _to_dict s false (validate_model
      ⟨s.model_cls.getD 0, load_additional_data (fieldResults s.fields m).1 m⟩) =
      .ok (.dict (dump_additional_data
        (marshalFields s.fields (validate_model
          ⟨s.model_cls.getD 0, load_additional_data (fieldResults s.fields m).1 m⟩).attrs)
        (validate_model
          ⟨s.model_cls.getD 0, load_additional_data (fieldResults s.fields m).1 m⟩).attrs)) := by
    simp [_to_dict, BaseSchema.dump, superDump]
  refine ⟨dump_additional_data
      (marshalFields s.fields (validate_model
        ⟨s.model_cls.getD 0, load_additional_data (fieldResults s.fields m).1 m⟩).attrs)
      (validate_model
        ⟨s.model_cls.getD 0, load_additional_data (fieldResults s.fields m).1 m⟩).attrs,
    ?_, ?_, ?_⟩
  · simp [roundTrip, hload, hdump]
  · rw [dlookup_dump_additional, marshalFields_dlookup, hFflag]
    simp [reservedName, black_list]
  · intro k hk
    have hres : reservedName k = false := reservedName_eq_false k hk
    have hak : dlookup k (validate_model
        ⟨s.model_cls.getD 0, load_additional_data (fieldResults s.fields m).1 m⟩).attrs =
        dlookup k m := by
      rw [hattrs k, if_neg (fun h => hk h.symm)]
    rw [dlookup_dump_additional, marshalFields_dlookup]
    by_cases hF : hasField s.fields k = true
    · rw [if_pos hF, hak]
      cases hdm : dlookup k m <;> simp [hres, hak, hdm]
    · rw [if_neg hF]
      simp [hres, hak]

/-- Claim C1 witness: the round trip at the person schema on
`{name: "Ada", tag: "x"}` (a required field plus an extra key). -/
theorem claim_C1_witness :
    ∃ out, roundTrip personSchema [("name", .str "Ada"), ("tag", .str "x")] = some out ∧
      dlookup "__is_valid__" out = none ∧
      ∀ k, k ≠ "__is_valid__" →
        dlookup k out = dlookup k [("name", .str "Ada"), ("tag", .str "x")] := by
  apply claim_C1_roundtrip
  · intro f hf
    have hf2 : f = strField "name" true := by simpa [personSchema] using hf
    subst hf2
    exact ⟨by decide, by decide, by decide⟩
  · intro f hf hr
    have hf2 : f = strField "name" true := by simpa [personSchema] using hf
    subst hf2
    rfl
  · intro f hf v hv
    have hf2 : f = strField "name" true := by simpa [personSchema] using hf
    subst hf2
    have hv2 : Value.str "Ada" = v := by simpa [dlookup, strField] using hv
    rw [← hv2]
    rfl
  · exact ⟨rfl, rfl⟩

end QiskitValidation
